import Mathlib

/-!
# Verification of the NBT BLE static connection handover example

Shallow embedding of the connection-handover coordinator:
* the handover message template and its field-update callbacks (`main.c`),
* the BLE management-event state machine `ble_callback` and the GATT
  helpers (`bluetooth-handling.c`),
* the button press/release classifier (`btn_task` in `main.c`).

Bytes are modelled as `Nat` (kept below 256 by the operations that matter),
byte buffers as `List Nat`.  External collaborators (the mbedTLS CMAC
backend, the WICED stack calls, the NBT tag transport and the key-value
store) are modelled by explicit success flags and, for the CMAC, an
abstract function parameter, so that the coordinator's control flow is
embedded exactly as written.
-/

/-- `memcpy (buf + off) src (length src)`: overwrite `buf` starting at
offset `off` with the bytes of `src` (clipped at the end of `buf`). -/
def writeBytes : List Nat → Nat → List Nat → List Nat
  | buf, _, [] => buf
  | [], _, _ => []
  | _ :: bs, 0, s :: ss => s :: writeBytes bs 0 ss
  | b :: bs, n + 1, src => b :: writeBytes bs n src

theorem writeBytes_nil (off : Nat) (src : List Nat) : writeBytes [] off src = [] := by
  cases src <;> rfl

theorem writeBytes_nil_src (buf : List Nat) (off : Nat) : writeBytes buf off [] = buf := by
  cases buf <;> cases off <;> rfl

theorem writeBytes_length (buf : List Nat) (off : Nat) (src : List Nat) :
    (writeBytes buf off src).length = buf.length := by
  induction buf generalizing off src with
  | nil => rw [writeBytes_nil]
  | cons b bs ih =>
    cases src with
    | nil => rw [writeBytes_nil_src]
    | cons s ss =>
      cases off with
      | zero => simpa [writeBytes] using ih 0 ss
      | succ n => simpa [writeBytes] using ih n (s :: ss)

theorem writeBytes_getD_lt (buf : List Nat) (off : Nat) (src : List Nat) (i d : Nat)
    (h : i < off) : (writeBytes buf off src).getD i d = buf.getD i d := by
  induction buf generalizing off src i with
  | nil => rw [writeBytes_nil]
  | cons b bs ih =>
    cases src with
    | nil => rw [writeBytes_nil_src]
    | cons s ss =>
      cases off with
      | zero => omega
      | succ n =>
        cases i with
        | zero => rfl
        | succ j => simpa [writeBytes] using ih n (s :: ss) j (by omega)

theorem writeBytes_getD_ge (buf : List Nat) (off : Nat) (src : List Nat) (i d : Nat)
    (h : off + src.length ≤ i) : (writeBytes buf off src).getD i d = buf.getD i d := by
  induction buf generalizing off src i with
  | nil => rw [writeBytes_nil]
  | cons b bs ih =>
    cases src with
    | nil => rw [writeBytes_nil_src]
    | cons s ss =>
      cases off with
      | zero =>
        cases i with
        | zero => simp at h
        | succ j =>
          simpa [writeBytes] using ih 0 ss j (by simp only [List.length_cons] at h; omega)
      | succ n =>
        cases i with
        | zero => rfl
        | succ j =>
          simpa [writeBytes] using ih n (s :: ss) j (by simp only [List.length_cons] at h ⊢; omega)

theorem writeBytes_getD_in (buf : List Nat) (off : Nat) (src : List Nat) (i d : Nat)
    (h1 : off ≤ i) (h2 : i < off + src.length) (h3 : i < buf.length) :
    (writeBytes buf off src).getD i d = src.getD (i - off) d := by
  induction buf generalizing off src i with
  | nil => simp at h3
  | cons b bs ih =>
    cases src with
    | nil => simp at h2; omega
    | cons s ss =>
      cases off with
      | zero =>
        cases i with
        | zero => rfl
        | succ j =>
          have := ih 0 ss j (by omega)
            (by simp only [List.length_cons] at h2 ⊢; omega)
            (by simp only [List.length_cons] at h3 ⊢; omega)
          simpa [writeBytes] using this
      | succ n =>
        cases i with
        | zero => omega
        | succ j =>
          have := ih n (s :: ss) j (by omega)
            (by simp only [List.length_cons] at h2 ⊢; omega)
            (by simp only [List.length_cons] at h3 ⊢; omega)
          simpa [writeBytes] using this

/-- The sub-range of `len` bytes of `msg` starting at offset `off`
(the bytes `nbt_write_file` is handed when pushing a field). -/
def fieldBytes (msg : List Nat) (off len : Nat) : List Nat :=
  (List.range len).map fun j => msg.getD (off + j) 0

theorem fieldBytes_length (msg : List Nat) (off len : Nat) :
    (fieldBytes msg off len).length = len := by
  simp [fieldBytes]

theorem range_map_congr {n : Nat} (f g : Nat → Nat) (h : ∀ i, i < n → f i = g i) :
    (List.range n).map f = (List.range n).map g := by
  induction n with
  | zero => rfl
  | succ m ih =>
    rw [List.range_succ, List.map_append, List.map_append,
      ih (fun i hi => h i (Nat.lt_succ_of_lt hi))]
    simp [h m (Nat.lt_succ_self m)]

theorem range_map_getD (l : List Nat) :
    (List.range l.length).map (fun j => l.getD j 0) = l := by
  induction l with
  | nil => rfl
  | cons a t ih =>
    have : (List.range t.length).map ((fun j => (a :: t).getD j 0) ∘ Nat.succ) =
        (List.range t.length).map (fun j => t.getD j 0) := by
      apply range_map_congr
      intro i _
      simp
    simp only [List.length_cons, List.range_succ_eq_map, List.map_cons, List.map_map]
    rw [this, ih]
    rfl

theorem range_map_const (n c : Nat) :
    (List.range n).map (fun _ => c) = List.replicate n c := by
  induction n with
  | zero => rfl
  | succ m ih => rw [List.range_succ, List.map_append, ih, List.replicate_succ']; rfl

theorem fieldBytes_writeBytes_self (msg src : List Nat) (off : Nat)
    (h : off + src.length ≤ msg.length) :
    fieldBytes (writeBytes msg off src) off src.length = src := by
  unfold fieldBytes
  have h1 : ∀ j, j < src.length →
      (writeBytes msg off src).getD (off + j) 0 = src.getD j 0 := by
    intro j hj
    rw [writeBytes_getD_in msg off src (off + j) 0 (by omega) (by omega) (by omega)]
    congr 1
    omega
  rw [range_map_congr _ _ h1, range_map_getD]

/-! ## Data model -/

/-- `CONNECTION_HANDOVER_MESSAGE` skeleton from `main.c` (NDEF handover
record; 115 bytes; the address/confirmation/random fields start out as
`0xFF` placeholders). -/
def CONNECTION_HANDOVER_MESSAGE : List Nat :=
  [0x00, 0x23 + 0x4E,
   0xD2,
   0x20,
   0x4E,
   0x61, 0x70, 0x70, 0x6C, 0x69, 0x63, 0x61, 0x74, 0x69, 0x6F, 0x6E, 0x2F, 0x76, 0x6E, 0x64, 0x2E,
   0x62, 0x6C, 0x75, 0x65, 0x74, 0x6F, 0x6F, 0x74, 0x68, 0x2E, 0x6C, 0x65, 0x2E, 0x6F, 0x6F, 0x62,
   0x08, 0x1B, 0xFF, 0xFF, 0xFF, 0xFF, 0xFF, 0xFF, 0x00,
   0x02, 0x1C, 0x00,
   0x04, 0x09, 0x4E, 0x42, 0x54,
   0x03, 0x19, 0xC2, 0x03,
   0x11, 0x10, 0x00, 0x00, 0x00, 0x00, 0x00, 0x00, 0x00, 0x00, 0x00, 0x00, 0x00, 0x00, 0x00, 0x00, 0x00, 0x00,
   0x11, 0x22, 0xFF, 0xFF, 0xFF, 0xFF, 0xFF, 0xFF, 0xFF, 0xFF, 0xFF, 0xFF, 0xFF, 0xFF, 0xFF, 0xFF, 0xFF, 0xFF,
   0x11, 0x23, 0xFF, 0xFF, 0xFF, 0xFF, 0xFF, 0xFF, 0xFF, 0xFF, 0xFF, 0xFF, 0xFF, 0xFF, 0xFF, 0xFF, 0xFF, 0xFF,
   0x02, 0x01, 0x06]

/-- Offset of the 6 MAC address bytes in `CONNECTION_HANDOVER_MESSAGE`. -/
def CONNECTION_HANDOVER_MESSAGE_MAC_OFFSET : Nat := 39

/-- Offset of the 16 LE Secure Connection confirmation value bytes. -/
def CONNECTION_HANDOVER_MESSAGE_CONFIRMATION_OFFSET : Nat := 78

/-- Offset of the 16 LE Secure Connection random value bytes. -/
def CONNECTION_HANDOVER_MESSAGE_RANDOM_OFFSET : Nat := 96

/-- File id of the NDEF file on the NBT tag (library constant; the exact
numeric value is immaterial to the claims, it only tags transport writes). -/
def NBT_FILEID_NDEF : Nat := 0xE104

/-- Size in bytes of the opaque `wiced_bt_device_link_keys_t` blob
(stack-defined; the exact value is immaterial to the claims). -/
def WICED_BT_DEVICE_LINK_KEYS_SIZE : Nat := 102

/-- GATT notification bit of a client characteristic configuration value. -/
def GATT_CLIENT_CONFIG_NOTIFICATION : Nat := 1

/-- Modelled from the spec: handle of the HID-report client characteristic
configuration descriptor.  The generated GATT database (`cycfg_gatt_db.c`)
that defines this constant is not part of the provided sources; only the
identity of the handle matters to the claims, so a fixed value is used. -/
def HDLD_HIDS_REPORT_CLIENT_CHAR_CONFIG : Nat := 13

/-- Status of the `ifx`/NBT library calls: `true` models `IFX_SUCCESS`. -/
abbrev IfxOk := Bool

/-- `wiced_result_t` as observed by the stack (success or any error). -/
inductive WResult
  | success
  | error
deriving DecidableEq, Repr

/-- `wiced_bt_gatt_status_t` values produced by the embedded handlers. -/
inductive GattStatus
  | success
  | invalidHandle
  | invalidOffset
  | invalidAttrLen
deriving DecidableEq, Repr

/-- BLE advertisement mode (off / undirected high duty cycle). -/
inductive AdvertMode
  | off
  | undirectedHigh
deriving DecidableEq, Repr

/-- Typed contents of the persistent key-value store. -/
inductive StoreEntry
  | bonding (keys : List Nat) (bonded : Bool)
  | word (v : Nat)
  | blob (bytes : List Nat)
deriving DecidableEq, Repr

/-- `mtb_kvstore_write`: replace or append the entry for `key`. -/
def kvUpdate : List (String × StoreEntry) → String → StoreEntry → List (String × StoreEntry)
  | [], key, v => [(key, v)]
  | (k, w) :: rest, key, v =>
    if k = key then (key, v) :: rest else (k, w) :: kvUpdate rest key v

/-- `mtb_kvstore_read`: look up the entry for `key`. -/
def kvRead : List (String × StoreEntry) → String → Option StoreEntry
  | [], _ => none
  | (k, w) :: rest, key => if k = key then some w else kvRead rest key

/-- One `gatt_db_lookup_table_t` entry: handle, declared maximum length,
current length, and the fixed-capacity backing byte array `p_data`. -/
structure GattAttr where
  handle : Nat
  max_len : Nat
  cur_len : Nat
  data : List Nat
deriving DecidableEq, Repr

/-- `handle2attr`: first table entry whose handle matches. -/
def handle2attr (attrs : List GattAttr) (h : Nat) : Option GattAttr :=
  attrs.find? fun a => a.handle == h

/-- In-place mutation of the entry `handle2attr` found (first match only). -/
def updateFirstAttr : List GattAttr → Nat → (GattAttr → GattAttr) → List GattAttr
  | [], _, _ => []
  | a :: rest, h, f =>
    if a.handle == h then f a :: rest else a :: updateFirstAttr rest h f

/-- One `nbt_write_file` call recorded against the tag transport. -/
structure NbtWrite where
  fileId : Nat
  offset : Nat
  bytes : List Nat
deriving DecidableEq, Repr

/-- The mutable globals of `main.c` / `bluetooth-handling.c`, plus the
observable interactions with the collaborators (transport writes,
notifications) and two ghost flags recording progress of the
`BTM_ENABLED_EVT` sequence (used only to state the ordering claim). -/
structure CoordState where
  /-- Current bytes of `CONNECTION_HANDOVER_MESSAGE`. -/
  message : List Nat
  /-- Log of `nbt_write_file` calls pushed to the tag transport. -/
  writes : List NbtWrite
  /-- Whether NBT tag-transport writes succeed. -/
  nbtOk : Bool
  /-- `bonding_info.bonded`. -/
  bonded : Bool
  /-- `bonding_info.device_link_keys` (opaque blob). -/
  device_link_keys : List Nat
  /-- Persistent key-value store contents. -/
  store : List (String × StoreEntry)
  /-- Whether `mtb_kvstore_write` succeeds. -/
  storeOk : Bool
  /-- `cccd` (in-RAM subscription flag). -/
  cccd : Nat
  /-- `connection_id` (0 when disconnected). -/
  connection_id : Nat
  /-- `app_gatt_db_ext_attr_tbl` (the attribute with handle
  `HDLD_HIDS_REPORT_CLIENT_CHAR_CONFIG` backs `app_hids_report_client_char_config`). -/
  attrs : List GattAttr
  /-- `app_hids_report[0]`. -/
  hidReport : Nat
  /-- Log of `wiced_bt_gatt_server_send_notification` calls: (conn id, value). -/
  notifications : List (Nat × Nat)
  /-- `local_identity_keys`. -/
  local_identity_keys : List Nat
  /-- Current advertisement mode. -/
  advertising : AdvertMode
  /-- Whether the stack's address resolution list has entries. -/
  resolutionListActive : Bool
  /-- Ghost: `callback_mac_address_changed` completed successfully
  during `BTM_ENABLED_EVT` processing. -/
  addressPushed : Bool
  /-- Ghost: `wiced_bt_smp_create_local_sc_oob_data` has been issued. -/
  oobRequested : Bool
deriving DecidableEq, Repr

/-- Behaviour of the external collaborators: result codes of the WICED
stack calls and the mbedTLS CMAC backend.  `cmac key msg` is the abstract
AES-128-CMAC; `stack_byte` is the value of the uninitialized final byte of
the 65-byte message buffer `m` in the OOB handler (the source never
initializes `m[64]`, its comment documents it as `0x00`). -/
structure Env where
  setup_ok : Bool
  starts_ok : Bool
  update_ok : Bool
  finish_ok : Bool
  cmac : List Nat → List Nat → List Nat
  stack_byte : Nat
  unique_id : Nat
  base_mac : List Nat
  set_bdaddr_ok : Bool
  adv_data_ok : Bool
  gatt_register_ok : Bool
  gatt_db_init_ok : Bool
  create_oob_ok : Bool
  start_adv_ok : Bool
  stop_adv_ok : Bool
  clear_list_ok : Bool
  delete_bonded_ok : Bool

/-! ## Tag-transport callbacks (`main.c`) -/

/-- `nbt_write_file(&nbt, fid, off, data, len)`: push `data` to the tag
transport, recording the call; succeeds iff the transport is up. -/
def nbt_write_file (st : CoordState) (fid off : Nat) (data : List Nat) : IfxOk × CoordState :=
  (st.nbtOk, { st with writes := st.writes ++ [⟨fid, off, data⟩] })

/-- `callback_mac_address_changed`: write the 6 address bytes into the
handover message in reversed order, then push that sub-range to the tag. -/
def callback_mac_address_changed (mac : List Nat) (st : CoordState) : IfxOk × CoordState :=
  let msg := writeBytes st.message CONNECTION_HANDOVER_MESSAGE_MAC_OFFSET
    ((List.range 6).map fun i => mac.getD (5 - i) 0)
  nbt_write_file { st with message := msg } NBT_FILEID_NDEF
    CONNECTION_HANDOVER_MESSAGE_MAC_OFFSET
    (fieldBytes msg CONNECTION_HANDOVER_MESSAGE_MAC_OFFSET 6)

/-- `callback_sc_confirmation_value_changed`: `memcpy` 16 bytes into the
confirmation field, then push that sub-range to the tag. -/
def callback_sc_confirmation_value_changed (confirmation : List Nat) (st : CoordState) :
    IfxOk × CoordState :=
  let msg := writeBytes st.message CONNECTION_HANDOVER_MESSAGE_CONFIRMATION_OFFSET
    (confirmation.take 16)
  nbt_write_file { st with message := msg } NBT_FILEID_NDEF
    CONNECTION_HANDOVER_MESSAGE_CONFIRMATION_OFFSET
    (fieldBytes msg CONNECTION_HANDOVER_MESSAGE_CONFIRMATION_OFFSET 16)

/-- `callback_sc_random_value_changed`: `memcpy` 16 bytes into the random
field, then push that sub-range to the tag. -/
def callback_sc_random_value_changed (random : List Nat) (st : CoordState) :
    IfxOk × CoordState :=
  let msg := writeBytes st.message CONNECTION_HANDOVER_MESSAGE_RANDOM_OFFSET
    (random.take 16)
  nbt_write_file { st with message := msg } NBT_FILEID_NDEF
    CONNECTION_HANDOVER_MESSAGE_RANDOM_OFFSET
    (fieldBytes msg CONNECTION_HANDOVER_MESSAGE_RANDOM_OFFSET 16)

/-! ## GATT helpers (`bluetooth-handling.c`) -/

/-- `app_hids_report_client_char_config[0]`: first byte of the backing
array of the HID-report CCCD attribute in the GATT table. -/
def app_hids_cccd_byte0 (st : CoordState) : Nat :=
  match handle2attr st.attrs HDLD_HIDS_REPORT_CLIENT_CHAR_CONFIG with
  | some a => a.data.getD 0 0
  | none => 0

/-- `ble_gatt_send_hid_update`: if the notification bit of the HID-report
CCCD is set, send `0x01` then (after a 30 ms delay) `0x00` to
`connection_id`; otherwise do nothing.  No connection check is performed. -/
def ble_gatt_send_hid_update (st : CoordState) : CoordState :=
  if app_hids_cccd_byte0 st &&& GATT_CLIENT_CONFIG_NOTIFICATION ≠ 0 then
    { st with hidReport := 0,
              notifications := st.notifications ++
                [(st.connection_id, 1), (st.connection_id, 0)] }
  else st

/-- `ble_clear_bonding_info`: stop advertising (aborting on failure); if
bonded, forget the peer in the stack (failure only logged), zero the
in-RAM record, and persist it best-effort; clear the address resolution
list (failure only logged); restart advertising (failure only logged).
The returned flag records whether the function ran to completion (the
source returns `void`; `false` models the early `return` after a failed
advertisement stop).  `env.delete_bonded_ok` is intentionally unused:
a failed `wiced_bt_dev_delete_bonded_device` only logs. -/
def ble_clear_bonding_info (env : Env) (st : CoordState) : Bool × CoordState :=
  if env.stop_adv_ok = false then (false, st)
  else
    let st1 := { st with advertising := AdvertMode.off }
    let st2 :=
      if st1.bonded then
        let cleared := { st1 with
          device_link_keys := List.replicate WICED_BT_DEVICE_LINK_KEYS_SIZE 0,
          bonded := false }
        let entry := StoreEntry.bonding cleared.device_link_keys false
        if cleared.storeOk then
          { cleared with store := kvUpdate cleared.store "bonding" entry }
        else cleared
      else st1
    let st3 :=
      if env.clear_list_ok then { st2 with resolutionListActive := false } else st2
    if env.start_adv_ok then (true, { st3 with advertising := AdvertMode.undirectedHigh })
    else (true, st3)

/-- `GATT_REQ_WRITE` handling in `gatt_callback`: look up the handle,
validate the length against the attribute's maximum, copy the value in,
and, when the target is the HID-report CCCD and at least 2 bytes were
written, refresh the in-RAM `cccd` from the first two bytes
(`(p_data[1] << 8) | p_data[0]`) and persist it best-effort. -/
def attrsAfterWrite (attrs : List GattAttr) (handle : Nat) (val : List Nat) :
    List GattAttr :=
  updateFirstAttr attrs handle
    (fun a => { a with cur_len := val.length, data := writeBytes a.data 0 val })

/-- `(attribute->p_data[1] << 8) | attribute->p_data[0]` after the copy. -/
def cccdOf (attr : GattAttr) (val : List Nat) : Nat :=
  ((writeBytes attr.data 0 val).getD 1 0 <<< 8) ||| (writeBytes attr.data 0 val).getD 0 0

def gatt_req_write_found (handle : Nat) (val : List Nat) (st : CoordState)
    (attr : GattAttr) : GattStatus × CoordState :=
  if attr.max_len < val.length then (GattStatus.invalidAttrLen, st)
  else if attr.handle = HDLD_HIDS_REPORT_CLIENT_CHAR_CONFIG ∧ 2 ≤ val.length then
    if st.storeOk then
      (GattStatus.success,
       { st with attrs := attrsAfterWrite st.attrs handle val, cccd := cccdOf attr val,
                 store := kvUpdate st.store "cccd" (StoreEntry.word (cccdOf attr val)) })
    else
      (GattStatus.success,
       { st with attrs := attrsAfterWrite st.attrs handle val, cccd := cccdOf attr val })
  else
    (GattStatus.success, { st with attrs := attrsAfterWrite st.attrs handle val })

/-- Dispatch of a GATT write: unknown handles are rejected, otherwise the
write is processed against the matched attribute. -/
def gatt_req_write (handle : Nat) (val : List Nat) (st : CoordState) :
    GattStatus × CoordState :=
  match handle2attr st.attrs handle with
  | none => (GattStatus.invalidHandle, st)
  | some attr => gatt_req_write_found handle val st attr

/-! ## BLE management events (`ble_callback`) -/

/-- Result of one `ble_callback` invocation: the `wiced_result_t` and the
peer link keys copied out through `event_data` on a successful
`BTM_PAIRED_DEVICE_LINK_KEYS_REQUEST_EVT`. -/
structure BleOut where
  result : WResult
  keys_out : Option (List Nat)
deriving DecidableEq, Repr

/-- Successful `ble_callback` return with no output payload. -/
def okOut : BleOut := { result := WResult.success, keys_out := none }

/-- `WICED_BT_ERROR` return with no output payload. -/
def errOut : BleOut := { result := WResult.error, keys_out := none }

/-- The events delivered to `ble_callback` that the claims exercise.
`oobDataReady` carries the payload of `p_smp_sc_local_oob_data`: the
public key x-coordinate and the randomizer (which the source ignores). -/
inductive BtEvent
  | stackEnabled (ok : Bool)
  | pairingIoCaps
  | pairingComplete
  | advertStateChanged (mode : AdvertMode)
  | peerKeysUpdate (keys : List Nat)
  | peerKeysRequest
  | identityKeysUpdate (blob : List Nat)
  | identityKeysRequest
  | encryptionStatus (addr : List Nat)
  | oobDataReady (pubx : List Nat) (randomizer : List Nat)
  | securityRequest (addr : List Nat)
  | other
deriving DecidableEq, Repr

/-- Bit positions of the unique hardware id sub-fields (platform
constants; exact values immaterial to the claims). -/
def CY_UNIQUE_ID_DIE_WAFER_Pos : Nat := 24

/-- Bit position of the die X coordinate in the unique id. -/
def CY_UNIQUE_ID_DIE_X_Pos : Nat := 32

/-- Bit position of the die Y coordinate in the unique id. -/
def CY_UNIQUE_ID_DIE_Y_Pos : Nat := 40

/-- The "load previous bonding information" block of `BTM_ENABLED_EVT`:
read the bonding record, and if a device was bonded install its keys in
the resolution list and restore the persisted CCCD value. -/
def loadBonding (st : CoordState) : CoordState :=
  match kvRead st.store "bonding" with
  | some (StoreEntry.bonding k b) =>
    if b then
      match kvRead st.store "cccd" with
      | some (StoreEntry.word v) =>
        { st with device_link_keys := k, bonded := b, resolutionListActive := true,
                  cccd := v }
      | _ =>
        { st with device_link_keys := k, bonded := b, resolutionListActive := true }
    else { st with device_link_keys := k, bonded := b }
  | _ => st

/-- `BTM_ENABLED_EVT`: derive the per-device MAC address, set it in the
stack, push it into the handover message (ghost `addressPushed`), load
the bonding record, configure advertising data and the GATT server, then
request OOB data generation (ghost `oobRequested`; on failure the source
hits `CY_ASSERT(0)`, modelled as an error without the request) and start
advertising. -/
def btm_enabled (env : Env) (ok : Bool) (st : CoordState) : BleOut × CoordState :=
  if ok = false then (errOut, st)
  else
    let mac := writeBytes env.base_mac 3
      [(env.unique_id >>> CY_UNIQUE_ID_DIE_WAFER_Pos) &&& 0xFF,
       (env.unique_id >>> CY_UNIQUE_ID_DIE_X_Pos) &&& 0xFF,
       (env.unique_id >>> CY_UNIQUE_ID_DIE_Y_Pos) &&& 0xFF]
    if env.set_bdaddr_ok = false then (errOut, st)
    else
      let r1 := callback_mac_address_changed mac st
      if r1.1 = false then (errOut, r1.2)
      else
        let st2 := loadBonding { r1.2 with addressPushed := true }
        if env.adv_data_ok = false then (errOut, st2)
        else if env.gatt_register_ok = false then (errOut, st2)
        else if env.gatt_db_init_ok = false then (errOut, st2)
        else if env.create_oob_ok = false then (errOut, st2)
        else
          let st3 := { st2 with oobRequested := true }
          if env.start_adv_ok then
            (okOut, { st3 with advertising := AdvertMode.undirectedHigh })
          else (errOut, st3)

/-- `BTM_SMP_SC_LOCAL_OOB_DATA_NOTIFICATION_EVT`: push the (all-zero)
random value, compute the confirmation value as the CMAC of
`public_key.x || public_key.x || m[64]` keyed with the random value, and
push it; any failure aborts with `WICED_BT_ERROR`.  The event's
randomizer payload is unused by the source. -/
def oob_data_notification (env : Env) (pubx _randomizer : List Nat) (st : CoordState) :
    BleOut × CoordState :=
  let random_value : List Nat := List.replicate 16 0
  let r1 := callback_sc_random_value_changed random_value st
  if r1.1 = false then (errOut, r1.2)
  else
    let m := pubx.take 32 ++ pubx.take 32 ++ [env.stack_byte]
    if env.setup_ok = false ∨ env.starts_ok = false ∨ env.update_ok = false then
      (errOut, r1.2)
    else if env.finish_ok = false then (errOut, r1.2)
    else
      let r2 := callback_sc_confirmation_value_changed (env.cmac random_value m) r1.2
      if r2.1 = false then (errOut, r2.2) else (okOut, r2.2)

/-- `BTM_PAIRING_COMPLETE_EVT`: mark bonded and persist the record
(persistence failure returns an error but leaves the RAM flag set). -/
def pairing_complete (st : CoordState) : BleOut × CoordState :=
  let st1 := { st with bonded := true }
  let entry := StoreEntry.bonding st1.device_link_keys true
  if st1.storeOk then
    (okOut, { st1 with store := kvUpdate st1.store "bonding" entry })
  else (errOut, st1)

/-- `BTM_BLE_ADVERT_STATE_CHANGED_EVT`: when advertising turned off with
no live connection, restart it. -/
def advert_state_changed (env : Env) (mode : AdvertMode) (st : CoordState) :
    BleOut × CoordState :=
  let st1 := { st with advertising := mode }
  if mode = AdvertMode.off ∧ st1.connection_id = 0 then
    if env.start_adv_ok then
      (okOut, { st1 with advertising := AdvertMode.undirectedHigh })
    else (errOut, st1)
  else (okOut, st1)

/-- `BTM_LOCAL_IDENTITY_KEYS_UPDATE_EVT`: mirror the blob in RAM and
persist it; persistence failure is an error for this event. -/
def identity_keys_update (b : List Nat) (st : CoordState) : BleOut × CoordState :=
  let st1 := { st with local_identity_keys := b }
  if st1.storeOk then
    (okOut, { st1 with store := kvUpdate st1.store "identity_keys" (StoreEntry.blob b) })
  else (errOut, st1)

/-- `BTM_LOCAL_IDENTITY_KEYS_REQUEST_EVT`: reload the blob from the
store; absence fails the request. -/
def identity_keys_request (st : CoordState) : BleOut × CoordState :=
  match kvRead st.store "identity_keys" with
  | some (StoreEntry.blob b) => (okOut, { st with local_identity_keys := b })
  | _ => (errOut, st)

/-- `BTM_ENCRYPTION_STATUS_EVT`: when the encrypted peer is the bonded
one, re-apply the persisted subscription flag to the live attribute
(`app_hids_report_client_char_config[0] = cccd`, a `uint8_t` store). -/
def encryption_status (addr : List Nat) (st : CoordState) : BleOut × CoordState :=
  let attrs1 := updateFirstAttr st.attrs HDLD_HIDS_REPORT_CLIENT_CHAR_CONFIG
    (fun a => { a with data := writeBytes a.data 0 [st.cccd % 256] })
  if st.bonded = true ∧ addr = st.device_link_keys.take 6 then
    (okOut, { st with attrs := attrs1 })
  else (okOut, st)

/-- `ble_callback`: dispatch on the management event.  Events outside the
switch return `WICED_BT_SUCCESS` and leave everything unchanged. -/
def dispatch (env : Env) (e : BtEvent) (st : CoordState) : BleOut × CoordState :=
  match e with
  | BtEvent.stackEnabled ok => btm_enabled env ok st
  | BtEvent.pairingIoCaps => (okOut, st)
  | BtEvent.pairingComplete => pairing_complete st
  | BtEvent.advertStateChanged m => advert_state_changed env m st
  | BtEvent.peerKeysUpdate k => (okOut, { st with device_link_keys := k })
  | BtEvent.peerKeysRequest =>
    if st.bonded = false then (errOut, st)
    else ({ result := WResult.success, keys_out := some st.device_link_keys }, st)
  | BtEvent.identityKeysUpdate b => identity_keys_update b st
  | BtEvent.identityKeysRequest => identity_keys_request st
  | BtEvent.encryptionStatus a => encryption_status a st
  | BtEvent.oobDataReady p r => oob_data_notification env p r st
  | BtEvent.securityRequest _ => (okOut, st)
  | BtEvent.other => (okOut, st)

/-! ## Button classifier (`btn_task`) -/

/-- `2 ^ 32`: modulus of the `uint32_t` arithmetic in `btn_task`. -/
def U32 : Nat := 4294967296

/-- Tick period of the `time_keeper` timer in milliseconds. -/
def PERIOD_LENGTH_MS : Nat := 100

/-- Which coordinator command the button release dispatches. -/
inductive BtnAction
  | resetBonding
  | sendNotification
deriving DecidableEq, Repr

/-- The release branch of `btn_task`: `press_duration` is the `uint32_t`
difference of the tick counter values; the long-press test is
`press_duration * PERIOD_LENGTH_MS > 5000` in `uint32_t` arithmetic. -/
def btn_release_action (press_start elapsed_periods : Nat) : BtnAction :=
  let press_duration := (elapsed_periods % U32 + U32 - press_start % U32) % U32
  if 5000 < press_duration * PERIOD_LENGTH_MS % U32 then BtnAction.resetBonding
  else BtnAction.sendNotification

/-! ## Initial state and concrete environments -/

/-- Modelled from the spec: the generated GATT database entry backing
`app_hids_report_client_char_config` (a standard 2-byte client
characteristic configuration descriptor; `cycfg_gatt_db.c`, which
declares it, is not part of the provided sources). -/
def hidsReportCccdAttr : GattAttr :=
  { handle := HDLD_HIDS_REPORT_CLIENT_CHAR_CONFIG, max_len := 2, cur_len := 2,
    data := [0, 0] }

/-- The program state at startup: pristine handover message, nothing
bonded, empty store, no connection, collaborators healthy. -/
def initialState : CoordState :=
  { message := CONNECTION_HANDOVER_MESSAGE
    writes := []
    nbtOk := true
    bonded := false
    device_link_keys := List.replicate WICED_BT_DEVICE_LINK_KEYS_SIZE 0
    store := []
    storeOk := true
    cccd := 0
    connection_id := 0
    attrs := [hidsReportCccdAttr]
    hidReport := 0
    notifications := []
    local_identity_keys := []
    advertising := AdvertMode.off
    resolutionListActive := false
    addressPushed := false
    oobRequested := false }

/-- Environment in which every collaborator call succeeds and the CMAC
backend returns a fixed 16-byte value (used for concrete executions). -/
def envAllOk : Env :=
  { setup_ok := true
    starts_ok := true
    update_ok := true
    finish_ok := true
    cmac := fun _ _ => List.replicate 16 0
    stack_byte := 0
    unique_id := 0
    base_mac := [0, 0, 0, 0, 0, 0]
    set_bdaddr_ok := true
    adv_data_ok := true
    gatt_register_ok := true
    gatt_db_init_ok := true
    create_oob_ok := true
    start_adv_ok := true
    stop_adv_ok := true
    clear_list_ok := true
    delete_bonded_ok := true }

/-! ## Helper facts about the callbacks -/

theorem callback_random_ok (r : List Nat) (st : CoordState) :
    (callback_sc_random_value_changed r st).1 = st.nbtOk := rfl

theorem callback_random_state (r : List Nat) (st : CoordState) :
    (callback_sc_random_value_changed r st).2 =
    { st with
      message := writeBytes st.message CONNECTION_HANDOVER_MESSAGE_RANDOM_OFFSET (r.take 16),
      writes := st.writes ++ [⟨NBT_FILEID_NDEF, CONNECTION_HANDOVER_MESSAGE_RANDOM_OFFSET,
        fieldBytes (writeBytes st.message CONNECTION_HANDOVER_MESSAGE_RANDOM_OFFSET (r.take 16))
          CONNECTION_HANDOVER_MESSAGE_RANDOM_OFFSET 16⟩] } := rfl

theorem callback_confirmation_ok (c : List Nat) (st : CoordState) :
    (callback_sc_confirmation_value_changed c st).1 = st.nbtOk := rfl

theorem callback_confirmation_state (c : List Nat) (st : CoordState) :
    (callback_sc_confirmation_value_changed c st).2 =
    { st with
      message := writeBytes st.message CONNECTION_HANDOVER_MESSAGE_CONFIRMATION_OFFSET (c.take 16),
      writes := st.writes ++ [⟨NBT_FILEID_NDEF, CONNECTION_HANDOVER_MESSAGE_CONFIRMATION_OFFSET,
        fieldBytes (writeBytes st.message CONNECTION_HANDOVER_MESSAGE_CONFIRMATION_OFFSET (c.take 16))
          CONNECTION_HANDOVER_MESSAGE_CONFIRMATION_OFFSET 16⟩] } := rfl

theorem callback_mac_ok (mac : List Nat) (st : CoordState) :
    (callback_mac_address_changed mac st).1 = st.nbtOk := rfl

theorem callback_mac_state (mac : List Nat) (st : CoordState) :
    (callback_mac_address_changed mac st).2 =
    { st with
      message := writeBytes st.message CONNECTION_HANDOVER_MESSAGE_MAC_OFFSET
        ((List.range 6).map fun i => mac.getD (5 - i) 0),
      writes := st.writes ++ [⟨NBT_FILEID_NDEF, CONNECTION_HANDOVER_MESSAGE_MAC_OFFSET,
        fieldBytes (writeBytes st.message CONNECTION_HANDOVER_MESSAGE_MAC_OFFSET
          ((List.range 6).map fun i => mac.getD (5 - i) 0))
          CONNECTION_HANDOVER_MESSAGE_MAC_OFFSET 6⟩] } := rfl

/-- Writing the random field does not disturb the confirmation field. -/
theorem confirmation_field_after_random_write (r : List Nat) (st : CoordState) :
    fieldBytes (callback_sc_random_value_changed r st).2.message
      CONNECTION_HANDOVER_MESSAGE_CONFIRMATION_OFFSET 16 =
    fieldBytes st.message CONNECTION_HANDOVER_MESSAGE_CONFIRMATION_OFFSET 16 := by
  rw [callback_random_state]
  apply range_map_congr
  intro j hj
  apply writeBytes_getD_lt
  simp only [CONNECTION_HANDOVER_MESSAGE_CONFIRMATION_OFFSET,
    CONNECTION_HANDOVER_MESSAGE_RANDOM_OFFSET]
  omega

/-- Writing the confirmation field does not disturb the random field. -/
theorem random_field_after_confirmation_write (c : List Nat) (st : CoordState) :
    fieldBytes (callback_sc_confirmation_value_changed c st).2.message
      CONNECTION_HANDOVER_MESSAGE_RANDOM_OFFSET 16 =
    fieldBytes st.message CONNECTION_HANDOVER_MESSAGE_RANDOM_OFFSET 16 := by
  rw [callback_confirmation_state]
  apply range_map_congr
  intro j hj
  apply writeBytes_getD_ge
  have : (c.take 16).length ≤ 16 := by
    simp
  simp only [CONNECTION_HANDOVER_MESSAGE_CONFIRMATION_OFFSET,
    CONNECTION_HANDOVER_MESSAGE_RANDOM_OFFSET] at *
  omega

/-! ## Claim C4 -/

/-- C4: for every 6-byte address, `callback_mac_address_changed` writes the
address bytes in exactly reversed order at the fixed MAC offset 39 of the
handover message, leaves every byte outside the 6-byte sub-range `[39, 45)`
unchanged, and the post-update message (the snapshot) therefore carries the
reversed bytes at that offset. -/
theorem C4_mac_address_reversed (mac : List Nat) (st : CoordState)
    (hlen : mac.length = 6) (hmsg : st.message.length = 115) :
    fieldBytes (callback_mac_address_changed mac st).2.message
      CONNECTION_HANDOVER_MESSAGE_MAC_OFFSET 6 = mac.reverse ∧
    (∀ j, j < CONNECTION_HANDOVER_MESSAGE_MAC_OFFSET ∨ CONNECTION_HANDOVER_MESSAGE_MAC_OFFSET + 6 ≤ j →
      (callback_mac_address_changed mac st).2.message.getD j 0 = st.message.getD j 0) ∧
    (callback_mac_address_changed mac st).2.message.length = st.message.length := by
  rcases mac with _ | ⟨a, _ | ⟨b, _ | ⟨c, _ | ⟨d, _ | ⟨e, _ | ⟨f, rest⟩⟩⟩⟩⟩⟩ <;>
    simp only [List.length_cons, List.length_nil] at hlen <;> try omega
  rcases rest with _ | ⟨g, rest⟩
  · rw [callback_mac_state]
    refine ⟨?_, ?_, ?_⟩
    · have hsrc : ((List.range 6).map fun i => [a, b, c, d, e, f].getD (5 - i) 0) =
          [f, e, d, c, b, a] := rfl
      rw [hsrc]
      have := fieldBytes_writeBytes_self st.message [f, e, d, c, b, a]
        CONNECTION_HANDOVER_MESSAGE_MAC_OFFSET
        (by simp only [CONNECTION_HANDOVER_MESSAGE_MAC_OFFSET, hmsg, List.length_cons,
          List.length_nil]; omega)
      simpa using this
    · intro j hj
      simp only [CONNECTION_HANDOVER_MESSAGE_MAC_OFFSET] at hj
      rcases hj with hj | hj
      · exact writeBytes_getD_lt _ _ _ _ _ (by simp only [CONNECTION_HANDOVER_MESSAGE_MAC_OFFSET]; omega)
      · apply writeBytes_getD_ge
        simp only [CONNECTION_HANDOVER_MESSAGE_MAC_OFFSET, List.length_map, List.length_range]
        omega
    · exact writeBytes_length _ _ _
  · simp at hlen

/-- C4 witness: a concrete run on address `[1,2,3,4,5,6]` from the initial
state yields the reversed bytes at offset 39 and leaves byte 0 unchanged. -/
theorem C4_mac_address_reversed_witness :
    fieldBytes (callback_mac_address_changed [1, 2, 3, 4, 5, 6] initialState).2.message
      CONNECTION_HANDOVER_MESSAGE_MAC_OFFSET 6 = [6, 5, 4, 3, 2, 1] ∧
    (callback_mac_address_changed [1, 2, 3, 4, 5, 6] initialState).2.message.getD 0 0 =
      initialState.message.getD 0 0 :=
  ⟨(C4_mac_address_reversed [1, 2, 3, 4, 5, 6] initialState rfl rfl).1,
   (C4_mac_address_reversed [1, 2, 3, 4, 5, 6] initialState rfl rfl).2.1 0 (Or.inl (by decide))⟩

/-! ## Claim C5 -/

/-- C5 counterexample: after the address update, the single transport push
carries 6 bytes at offset 39, not the template's complete 115-byte image —
the pushed bytes differ from the full current snapshot. -/
theorem C5_counterexample :
    (callback_mac_address_changed [1, 2, 3, 4, 5, 6] initialState).2.writes.length = 1 ∧
    ((callback_mac_address_changed [1, 2, 3, 4, 5, 6] initialState).2.writes.getD 0
      ⟨0, 0, []⟩).bytes ≠
    (callback_mac_address_changed [1, 2, 3, 4, 5, 6] initialState).2.message := by
  constructor
  · rfl
  · decide

/-- C5 (amended): each field update pushes exactly the changed field's
sub-range — at the field's fixed offset, with the field's length — and the
pushed bytes coincide with the current template image on that sub-range;
the template keeps its length, but the push is never the whole image. -/
theorem C5_field_range_pushes (st : CoordState) (mac conf rand : List Nat) :
    ((callback_mac_address_changed mac st).2.writes = st.writes ++
      [⟨NBT_FILEID_NDEF, CONNECTION_HANDOVER_MESSAGE_MAC_OFFSET,
        fieldBytes (callback_mac_address_changed mac st).2.message
          CONNECTION_HANDOVER_MESSAGE_MAC_OFFSET 6⟩]) ∧
    ((callback_sc_confirmation_value_changed conf st).2.writes = st.writes ++
      [⟨NBT_FILEID_NDEF, CONNECTION_HANDOVER_MESSAGE_CONFIRMATION_OFFSET,
        fieldBytes (callback_sc_confirmation_value_changed conf st).2.message
          CONNECTION_HANDOVER_MESSAGE_CONFIRMATION_OFFSET 16⟩]) ∧
    ((callback_sc_random_value_changed rand st).2.writes = st.writes ++
      [⟨NBT_FILEID_NDEF, CONNECTION_HANDOVER_MESSAGE_RANDOM_OFFSET,
        fieldBytes (callback_sc_random_value_changed rand st).2.message
          CONNECTION_HANDOVER_MESSAGE_RANDOM_OFFSET 16⟩]) ∧
    (callback_mac_address_changed mac st).2.message.length = st.message.length ∧
    (callback_sc_confirmation_value_changed conf st).2.message.length = st.message.length ∧
    (callback_sc_random_value_changed rand st).2.message.length = st.message.length := by
  refine ⟨?_, ?_, ?_, ?_, ?_, ?_⟩
  · rw [callback_mac_state]
  · rw [callback_confirmation_state]
  · rw [callback_random_state]
  · rw [callback_mac_state]; exact writeBytes_length _ _ _
  · rw [callback_confirmation_state]; exact writeBytes_length _ _ _
  · rw [callback_random_state]; exact writeBytes_length _ _ _

theorem dispatch_oob (env : Env) (p r : List Nat) (st : CoordState) :
    dispatch env (BtEvent.oobDataReady p r) st = oob_data_notification env p r st := rfl

/-! ## Claim C3 -/

/-- C3: if the cipher-context setup, the CMAC start, the CMAC update or
the CMAC finish fails, the OobDataReady handler returns `WICED_BT_ERROR`
and the confirmation-value field of the handover message keeps exactly
its previous bytes (no partial output is exposed). -/
theorem C3_crypto_failure_no_partial_output (env : Env) (pubx seed : List Nat)
    (st : CoordState)
    (hfail : env.setup_ok = false ∨ env.starts_ok = false ∨ env.update_ok = false ∨
      env.finish_ok = false) :
    (dispatch env (BtEvent.oobDataReady pubx seed) st).1.result = WResult.error ∧
    fieldBytes (dispatch env (BtEvent.oobDataReady pubx seed) st).2.message
      CONNECTION_HANDOVER_MESSAGE_CONFIRMATION_OFFSET 16 =
    fieldBytes st.message CONNECTION_HANDOVER_MESSAGE_CONFIRMATION_OFFSET 16 := by
  have hconf := confirmation_field_after_random_write (List.replicate 16 0) st
  rw [dispatch_oob]
  simp only [oob_data_notification]
  by_cases h1 : (callback_sc_random_value_changed (List.replicate 16 0) st).1 = false
  · rw [if_pos h1]
    exact ⟨rfl, hconf⟩
  · rw [if_neg h1]
    by_cases h2 : env.setup_ok = false ∨ env.starts_ok = false ∨ env.update_ok = false
    · rw [if_pos h2]
      exact ⟨rfl, hconf⟩
    · rw [if_neg h2]
      have h3 : env.finish_ok = false := by tauto
      rw [if_pos h3]
      exact ⟨rfl, hconf⟩

/-- C3 witness: with a failing cipher setup, a concrete OobDataReady run
from the initial state errors out and keeps the placeholder confirmation
bytes. -/
theorem C3_crypto_failure_witness :
    (dispatch { envAllOk with setup_ok := false }
      (BtEvent.oobDataReady (List.replicate 32 17) (List.replicate 16 34))
      initialState).1.result = WResult.error ∧
    fieldBytes (dispatch { envAllOk with setup_ok := false }
      (BtEvent.oobDataReady (List.replicate 32 17) (List.replicate 16 34))
      initialState).2.message CONNECTION_HANDOVER_MESSAGE_CONFIRMATION_OFFSET 16 =
    fieldBytes initialState.message CONNECTION_HANDOVER_MESSAGE_CONFIRMATION_OFFSET 16 :=
  C3_crypto_failure_no_partial_output { envAllOk with setup_ok := false }
    (List.replicate 32 17) (List.replicate 16 34) initialState (Or.inl rfl)

/-! ## Claim C1 -/

/-- C1 counterexample: for the scenario-A event (`pub_x = 0x11 * 32`,
`random = 0x22 * 16`), successful processing writes the all-zero value
into the random-value field — not the event's 16-byte random seed. -/
theorem C1_counterexample :
    (dispatch envAllOk
      (BtEvent.oobDataReady (List.replicate 32 0x11) (List.replicate 16 0x22))
      initialState).1.result = WResult.success ∧
    fieldBytes (dispatch envAllOk
      (BtEvent.oobDataReady (List.replicate 32 0x11) (List.replicate 16 0x22))
      initialState).2.message CONNECTION_HANDOVER_MESSAGE_RANDOM_OFFSET 16 =
      List.replicate 16 0 ∧
    List.replicate 16 0 ≠ (List.replicate 16 0x22 : List Nat) :=
  ⟨by decide, by decide, by decide⟩

/-- C1 (amended): successful OobDataReady processing ignores the event's
random seed: it writes the all-zero 16-byte value into the random-value
field and pushes exactly that value to the tag transport, and writes into
the confirmation-value field the AES-128-CMAC, keyed with the all-zero
value, of the 65-byte message `x ++ x ++ [t]` — `t` being the trailing
byte the source leaves uninitialized (its comment documents it as zero) —
and pushes that value as well. -/
theorem C1_oob_processing (env : Env) (pubx seed : List Nat) (st : CoordState)
    (hx : pubx.length = 32) (hmsg : st.message.length = 115) (hnbt : st.nbtOk = true)
    (hsetup : env.setup_ok = true) (hstarts : env.starts_ok = true)
    (hupdate : env.update_ok = true) (hfinish : env.finish_ok = true)
    (hcm : (env.cmac (List.replicate 16 0) (pubx ++ pubx ++ [env.stack_byte])).length = 16) :
    (dispatch env (BtEvent.oobDataReady pubx seed) st).1.result = WResult.success ∧
    fieldBytes (dispatch env (BtEvent.oobDataReady pubx seed) st).2.message
      CONNECTION_HANDOVER_MESSAGE_RANDOM_OFFSET 16 = List.replicate 16 0 ∧
    fieldBytes (dispatch env (BtEvent.oobDataReady pubx seed) st).2.message
      CONNECTION_HANDOVER_MESSAGE_CONFIRMATION_OFFSET 16 =
      env.cmac (List.replicate 16 0) (pubx ++ pubx ++ [env.stack_byte]) ∧
    (dispatch env (BtEvent.oobDataReady pubx seed) st).2.writes = st.writes ++
      [⟨NBT_FILEID_NDEF, CONNECTION_HANDOVER_MESSAGE_RANDOM_OFFSET, List.replicate 16 0⟩,
       ⟨NBT_FILEID_NDEF, CONNECTION_HANDOVER_MESSAGE_CONFIRMATION_OFFSET,
        env.cmac (List.replicate 16 0) (pubx ++ pubx ++ [env.stack_byte])⟩] := by
  have htake : pubx.take 32 = pubx := List.take_of_length_le (by omega)
  have hreplicate : (List.replicate 16 0 : List Nat).take 16 = List.replicate 16 0 := by simp
  have hm1len : (callback_sc_random_value_changed (List.replicate 16 0) st).2.message.length =
      115 := by
    rw [callback_random_state, writeBytes_length, hmsg]
  have hrandfield : fieldBytes
      (callback_sc_random_value_changed (List.replicate 16 0) st).2.message
      CONNECTION_HANDOVER_MESSAGE_RANDOM_OFFSET 16 = List.replicate 16 0 := by
    rw [callback_random_state, hreplicate]
    have := fieldBytes_writeBytes_self st.message (List.replicate 16 0)
      CONNECTION_HANDOVER_MESSAGE_RANDOM_OFFSET
      (by rw [hmsg]; simp [CONNECTION_HANDOVER_MESSAGE_RANDOM_OFFSET])
    simpa using this
  have hcmtake :
      (env.cmac (List.replicate 16 0) (pubx ++ pubx ++ [env.stack_byte])).take 16 =
      env.cmac (List.replicate 16 0) (pubx ++ pubx ++ [env.stack_byte]) :=
    List.take_of_length_le (by omega)
  have hconffield : ∀ s1 : CoordState, s1.message.length = 115 →
      fieldBytes (callback_sc_confirmation_value_changed
          (env.cmac (List.replicate 16 0) (pubx ++ pubx ++ [env.stack_byte])) s1).2.message
        CONNECTION_HANDOVER_MESSAGE_CONFIRMATION_OFFSET 16 =
      env.cmac (List.replicate 16 0) (pubx ++ pubx ++ [env.stack_byte]) := by
    intro s1 hs1
    rw [callback_confirmation_state, hcmtake]
    have := fieldBytes_writeBytes_self s1.message
      (env.cmac (List.replicate 16 0) (pubx ++ pubx ++ [env.stack_byte]))
      CONNECTION_HANDOVER_MESSAGE_CONFIRMATION_OFFSET
      (by rw [hs1, hcm]; simp [CONNECTION_HANDOVER_MESSAGE_CONFIRMATION_OFFSET])
    rw [hcm] at this
    exact this
  rw [dispatch_oob]
  simp only [oob_data_notification]
  rw [htake]
  rw [if_neg (by rw [callback_random_ok, hnbt]; simp)]
  rw [if_neg (by rw [hsetup, hstarts, hupdate]; simp)]
  rw [if_neg (by rw [hfinish]; simp)]
  have hcok : (callback_sc_confirmation_value_changed
      (env.cmac (List.replicate 16 0) (pubx ++ pubx ++ [env.stack_byte]))
      (callback_sc_random_value_changed (List.replicate 16 0) st).2).1 = true := by
    rw [callback_confirmation_ok, callback_random_state]
    exact hnbt
  rw [if_neg (by rw [hcok]; simp)]
  refine ⟨rfl, ?_, ?_, ?_⟩
  · rw [random_field_after_confirmation_write]
    exact hrandfield
  · exact hconffield _ hm1len
  · have hw2 : (callback_sc_confirmation_value_changed
        (env.cmac (List.replicate 16 0) (pubx ++ pubx ++ [env.stack_byte]))
        (callback_sc_random_value_changed (List.replicate 16 0) st).2).2.writes =
        (callback_sc_random_value_changed (List.replicate 16 0) st).2.writes ++
        [⟨NBT_FILEID_NDEF, CONNECTION_HANDOVER_MESSAGE_CONFIRMATION_OFFSET,
          fieldBytes (callback_sc_confirmation_value_changed
            (env.cmac (List.replicate 16 0) (pubx ++ pubx ++ [env.stack_byte]))
            (callback_sc_random_value_changed (List.replicate 16 0) st).2).2.message
          CONNECTION_HANDOVER_MESSAGE_CONFIRMATION_OFFSET 16⟩] := by
      rw [callback_confirmation_state]
    have hw1 : (callback_sc_random_value_changed (List.replicate 16 0) st).2.writes =
        st.writes ++ [⟨NBT_FILEID_NDEF, CONNECTION_HANDOVER_MESSAGE_RANDOM_OFFSET,
          fieldBytes (callback_sc_random_value_changed (List.replicate 16 0) st).2.message
          CONNECTION_HANDOVER_MESSAGE_RANDOM_OFFSET 16⟩] := by
      rw [callback_random_state]
    rw [hw2, hconffield _ hm1len, hw1, hrandfield]
    simp

/-- C1 witness: concrete scenario-A run (all collaborators healthy)
succeeds and zeroes the random field. -/
theorem C1_oob_processing_witness :
    (dispatch envAllOk
      (BtEvent.oobDataReady (List.replicate 32 0x11) (List.replicate 16 0x22))
      initialState).1.result = WResult.success ∧
    fieldBytes (dispatch envAllOk
      (BtEvent.oobDataReady (List.replicate 32 0x11) (List.replicate 16 0x22))
      initialState).2.message CONNECTION_HANDOVER_MESSAGE_RANDOM_OFFSET 16 =
      List.replicate 16 0 :=
  ⟨(C1_oob_processing envAllOk (List.replicate 32 0x11) (List.replicate 16 0x22)
      initialState rfl rfl rfl rfl rfl rfl rfl rfl).1,
   (C1_oob_processing envAllOk (List.replicate 32 0x11) (List.replicate 16 0x22)
      initialState rfl rfl rfl rfl rfl rfl rfl rfl).2.1⟩

/-! ## Claim C6 -/

/-- C6: `BTM_PAIRED_DEVICE_LINK_KEYS_REQUEST_EVT` fails exactly when no
device is bonded; when bonded it succeeds returning the in-RAM link keys;
the request leaves the coordinator state unchanged in either case; and
`BTM_PAIRED_DEVICE_LINK_KEYS_UPDATE_EVT` is what sets those in-RAM keys. -/
theorem C6_peer_keys_request (env : Env) (st : CoordState) (k : List Nat) :
    ((dispatch env BtEvent.peerKeysRequest st).1.result = WResult.error ↔
      st.bonded = false) ∧
    (st.bonded = true →
      (dispatch env BtEvent.peerKeysRequest st).1.keys_out = some st.device_link_keys ∧
      (dispatch env BtEvent.peerKeysRequest st).1.result = WResult.success) ∧
    (dispatch env BtEvent.peerKeysRequest st).2 = st ∧
    (dispatch env (BtEvent.peerKeysUpdate k) st).2.device_link_keys = k ∧
    (dispatch env (BtEvent.peerKeysUpdate k) st).2.bonded = st.bonded := by
  cases hb : st.bonded <;>
    simp [dispatch, hb, errOut, okOut, WResult]

/-- C6 witness: scenario B — with no prior bond the request errors; after
`PairingComplete` and a `PeerKeysUpdate` of `0x09 * 102` it succeeds
returning exactly that value. -/
theorem C6_peer_keys_request_witness :
    ((dispatch envAllOk BtEvent.peerKeysRequest initialState).1.result = WResult.error) ∧
    ((dispatch envAllOk BtEvent.peerKeysRequest
        (dispatch envAllOk BtEvent.pairingComplete
          (dispatch envAllOk (BtEvent.peerKeysUpdate (List.replicate 102 9))
            initialState).2).2).1.keys_out = some (List.replicate 102 9)) := by
  constructor
  · exact (C6_peer_keys_request envAllOk initialState []).1.mpr rfl
  · have h := (C6_peer_keys_request envAllOk
      (dispatch envAllOk BtEvent.pairingComplete
        (dispatch envAllOk (BtEvent.peerKeysUpdate (List.replicate 102 9))
          initialState).2).2 []).2.1 (by decide)
    rw [h.1]
    decide

/-! ## Claim C7 -/

/-- C7 counterexample: for the measured press/release pair (0, 42949673)
the mathematical product of elapsed ticks and the period exceeds 5000 ms,
yet the classifier dispatches `SendNotification` — the `uint32_t` product
wraps to 4. -/
theorem C7_counterexample :
    5000 < 42949673 * PERIOD_LENGTH_MS ∧
    btn_release_action 0 42949673 = BtnAction.sendNotification ∧
    btn_release_action 0 42949673 ≠ BtnAction.resetBonding :=
  ⟨by decide, by decide, by decide⟩

/-- C7 (amended): the classifier dispatches `ResetBonding` exactly when
`elapsed ticks × period` computed in `uint32_t` arithmetic (i.e. modulo
`2^32`) exceeds 5000 ms, and `SendNotification` otherwise; whenever the
product does not overflow — in particular for the 6000 ms and 200 ms
scenario holds — this coincides with the claimed mathematical test. -/
theorem C7_button_threshold (press_start elapsed : Nat)
    (hs : press_start < U32) (he : elapsed < U32) :
    (btn_release_action press_start elapsed = BtnAction.resetBonding ↔
      5000 < ((elapsed + U32 - press_start) % U32) * PERIOD_LENGTH_MS % U32) ∧
    (((elapsed + U32 - press_start) % U32) * PERIOD_LENGTH_MS < U32 →
      ((btn_release_action press_start elapsed = BtnAction.resetBonding ↔
        5000 < ((elapsed + U32 - press_start) % U32) * PERIOD_LENGTH_MS) ∧
       (btn_release_action press_start elapsed = BtnAction.sendNotification ↔
        ((elapsed + U32 - press_start) % U32) * PERIOD_LENGTH_MS ≤ 5000))) := by
  simp only [btn_release_action, Nat.mod_eq_of_lt hs, Nat.mod_eq_of_lt he]
  constructor
  · by_cases hc : 5000 < ((elapsed + U32 - press_start) % U32) * PERIOD_LENGTH_MS % U32
    · rw [if_pos hc]
      exact iff_of_true rfl hc
    · rw [if_neg hc]
      exact iff_of_false (by simp) hc
  · intro hlt
    rw [Nat.mod_eq_of_lt hlt]
    by_cases hc : 5000 < ((elapsed + U32 - press_start) % U32) * PERIOD_LENGTH_MS
    · rw [if_pos hc]
      exact ⟨iff_of_true rfl hc, iff_of_false (by simp) (by omega)⟩
    · rw [if_neg hc]
      exact ⟨iff_of_false (by simp) hc, iff_of_true rfl (by omega)⟩

/-- C7 witness: a 6000 ms hold (60 ticks) dispatches `ResetBonding`, a
200 ms hold (2 ticks) dispatches `SendNotification`. -/
theorem C7_button_threshold_witness :
    btn_release_action 0 60 = BtnAction.resetBonding ∧
    btn_release_action 0 2 = BtnAction.sendNotification := by
  constructor
  · exact ((C7_button_threshold 0 60 (by decide) (by decide)).2 (by decide)).1.mpr (by decide)
  · exact ((C7_button_threshold 0 2 (by decide) (by decide)).2 (by decide)).2.mpr (by decide)

/-! ## Claim C8 -/

/-- C8: `ble_clear_bonding_info` is idempotent — running it twice from any
state, with any (deterministic) collaborator behaviour, ends in the same
state as running it once (in-RAM bonding record, persistent store,
resolution list and advertising state included) — and, called with no
active bond, it runs to completion whenever the advertising-stop
collaborator call succeeds (the function itself has no failure return). -/
theorem C8_reset_bonding_idempotent (env : Env) (st : CoordState) :
    (ble_clear_bonding_info env (ble_clear_bonding_info env st).2).2 =
      (ble_clear_bonding_info env st).2 ∧
    (st.bonded = false → env.stop_adv_ok = true →
      (ble_clear_bonding_info env st).1 = true) := by
  obtain ⟨msg, w, nbt, bonded, keys, store, sOk, cc, conn, attrs, hid, notif, lik,
    adv, res, ap, oobr⟩ := st
  cases hstop : env.stop_adv_ok <;>
    cases bonded <;>
      cases sOk <;>
        cases hclear : env.clear_list_ok <;>
          cases hstart : env.start_adv_ok <;>
            simp [ble_clear_bonding_info, hstop, hclear, hstart]

/-- C8 witness: concrete double reset from the initial (unbonded) state
is a no-op the second time, and the first call runs to completion. -/
theorem C8_reset_bonding_idempotent_witness :
    (ble_clear_bonding_info envAllOk (ble_clear_bonding_info envAllOk initialState).2).2 =
      (ble_clear_bonding_info envAllOk initialState).2 ∧
    (ble_clear_bonding_info envAllOk initialState).1 = true :=
  ⟨(C8_reset_bonding_idempotent envAllOk initialState).1,
   (C8_reset_bonding_idempotent envAllOk initialState).2 rfl rfl⟩

/-! ## Claim C9 -/

/-- A state whose HID-report CCCD attribute has the notification bit set
while no peer is connected (`connection_id = 0`) and the in-RAM
SubscriptionFlag `cccd` is 0. -/
def c9SubscribedDisconnected : CoordState :=
  { initialState with
    attrs := [{ handle := HDLD_HIDS_REPORT_CLIENT_CHAR_CONFIG, max_len := 2, cur_len := 2,
                data := [1, 0] }] }

/-- C9 counterexample: with no connection (`connection_id = 0`) and the
in-RAM SubscriptionFlag clear, `ble_gatt_send_hid_update` still transmits
the pulse (to connection id 0) because it checks only the live attribute
byte — it is not a no-op when no connection exists. -/
theorem C9_counterexample :
    c9SubscribedDisconnected.connection_id = 0 ∧
    c9SubscribedDisconnected.cccd = 0 ∧
    (ble_gatt_send_hid_update c9SubscribedDisconnected).notifications ≠
      c9SubscribedDisconnected.notifications :=
  ⟨rfl, rfl, by decide⟩

/-- C9 (amended): `ble_gatt_send_hid_update` transmits the momentary
active value (1) followed by the inactive value (0) to the current
`connection_id` exactly when the notification bit of the live HID-report
CCCD attribute is set; it performs no connection check, and is a no-op
exactly when that bit is clear. -/
theorem C9_hid_update (st : CoordState) :
    (app_hids_cccd_byte0 st &&& GATT_CLIENT_CONFIG_NOTIFICATION ≠ 0 →
      (ble_gatt_send_hid_update st).notifications =
        st.notifications ++ [(st.connection_id, 1), (st.connection_id, 0)] ∧
      (ble_gatt_send_hid_update st).hidReport = 0) ∧
    (app_hids_cccd_byte0 st &&& GATT_CLIENT_CONFIG_NOTIFICATION = 0 →
      ble_gatt_send_hid_update st = st) := by
  unfold ble_gatt_send_hid_update
  constructor
  · intro h
    rw [if_pos h]
    exact ⟨rfl, rfl⟩
  · intro h
    rw [if_neg (by simp [h])]

/-- The subscribed state of `c9SubscribedDisconnected` but with a live
connection id 5. -/
def c9SubscribedConnected : CoordState :=
  { c9SubscribedDisconnected with connection_id := 5 }

/-- C9 witness: with the notification bit set and connection id 5, the
pulse (1 then 0) is sent to connection 5. -/
theorem C9_hid_update_witness :
    (ble_gatt_send_hid_update c9SubscribedConnected).notifications = [(5, 1), (5, 0)] := by
  rw [((C9_hid_update c9SubscribedConnected).1 (by decide)).1]
  rfl

/-! ## Claim C10 -/

theorem lor_shiftLeft_eight (hi lo : Nat) (h : lo < 256) :
    (hi <<< 8) ||| lo = 256 * hi + lo := by
  have h1 : hi <<< 8 = 2 ^ 8 * hi := by rw [Nat.shiftLeft_eq]; ring
  rw [h1, ← Nat.mul_add_lt_is_or h hi]

theorem handle2attr_some (attrs : List GattAttr) (h : Nat) (a : GattAttr)
    (hfind : handle2attr attrs h = some a) : a.handle = h := by
  unfold handle2attr at hfind
  have hp := List.find?_some hfind
  exact eq_of_beq hp

theorem gatt_req_write_eq_found (handle : Nat) (val : List Nat) (st : CoordState)
    (a : GattAttr) (hfind : handle2attr st.attrs handle = some a) :
    gatt_req_write handle val st = gatt_req_write_found handle val st a := by
  unfold gatt_req_write
  rw [hfind]

theorem gatt_req_write_eq_none (handle : Nat) (val : List Nat) (st : CoordState)
    (hfind : handle2attr st.attrs handle = none) :
    gatt_req_write handle val st = (GattStatus.invalidHandle, st) := by
  unfold gatt_req_write
  rw [hfind]

/-- C10 counterexample: a 3-byte write to the HID-report CCCD descriptor
(declared maximum 2) is rejected with `invalidAttrLen` and leaves `cccd`
unchanged, although the claim says any write of at least 2 bytes to that
descriptor sets `cccd` from its first two bytes (here, to 1). -/
theorem C10_counterexample :
    (gatt_req_write HDLD_HIDS_REPORT_CLIENT_CHAR_CONFIG [1, 0, 0] initialState).1 =
      GattStatus.invalidAttrLen ∧
    (gatt_req_write HDLD_HIDS_REPORT_CLIENT_CHAR_CONFIG [1, 0, 0] initialState).2.cccd =
      initialState.cccd ∧
    initialState.cccd ≠ 256 * 0 + 1 :=
  ⟨by decide, by decide, by decide⟩

/-- C10 (amended): a GATT write to a handle other than the HID-report
CCCD descriptor, or one carrying fewer than 2 bytes, or one longer than
the descriptor's declared maximum (rejected with `invalidAttrLen`),
leaves the in-RAM `cccd` unchanged; an accepted write of at least 2 bytes
to that descriptor sets `cccd` to the little-endian value of the first
two written bytes (low byte first). -/
theorem C10_cccd_write (st : CoordState) (handle : Nat) (val : List Nat) :
    (handle ≠ HDLD_HIDS_REPORT_CLIENT_CHAR_CONFIG →
      (gatt_req_write handle val st).2.cccd = st.cccd) ∧
    (val.length < 2 → (gatt_req_write handle val st).2.cccd = st.cccd) ∧
    (∀ a, handle2attr st.attrs handle = some a → a.max_len < val.length →
      (gatt_req_write handle val st).1 = GattStatus.invalidAttrLen ∧
      (gatt_req_write handle val st).2.cccd = st.cccd) ∧
    (∀ a, handle2attr st.attrs handle = some a →
      handle = HDLD_HIDS_REPORT_CLIENT_CHAR_CONFIG → 2 ≤ val.length →
      val.length ≤ a.max_len → a.data.length = a.max_len → val.getD 0 0 < 256 →
      (gatt_req_write handle val st).1 = GattStatus.success ∧
      (gatt_req_write handle val st).2.cccd = 256 * val.getD 1 0 + val.getD 0 0) := by
  refine ⟨?_, ?_, ?_, ?_⟩
  · intro hne
    cases hfind : handle2attr st.attrs handle with
    | none => rw [gatt_req_write_eq_none handle val st hfind]
    | some a =>
      rw [gatt_req_write_eq_found handle val st a hfind]
      have ha : a.handle = handle := handle2attr_some st.attrs handle a hfind
      unfold gatt_req_write_found
      by_cases hlen : a.max_len < val.length
      · rw [if_pos hlen]
      · rw [if_neg hlen, if_neg (fun hcon => hne (ha ▸ hcon.1))]
  · intro hsmall
    cases hfind : handle2attr st.attrs handle with
    | none => rw [gatt_req_write_eq_none handle val st hfind]
    | some a =>
      rw [gatt_req_write_eq_found handle val st a hfind]
      unfold gatt_req_write_found
      by_cases hlen : a.max_len < val.length
      · rw [if_pos hlen]
      · rw [if_neg hlen, if_neg (fun hcon => absurd hcon.2 (by omega))]
  · intro a hfind hover
    rw [gatt_req_write_eq_found handle val st a hfind]
    unfold gatt_req_write_found
    rw [if_pos hover]
    exact ⟨rfl, rfl⟩
  · intro a hfind hH h2 hmax hdata hb0
    have ha : a.handle = handle := handle2attr_some st.attrs handle a hfind
    rw [gatt_req_write_eq_found handle val st a hfind]
    unfold gatt_req_write_found
    rw [if_neg (by omega), if_pos ⟨by rw [ha, hH], h2⟩]
    have hg0 : (writeBytes a.data 0 val).getD 0 0 = val.getD 0 0 := by
      have := writeBytes_getD_in a.data 0 val 0 0 (by omega) (by omega) (by omega)
      simpa using this
    have hg1 : (writeBytes a.data 0 val).getD 1 0 = val.getD 1 0 := by
      have := writeBytes_getD_in a.data 0 val 1 0 (by omega) (by omega) (by omega)
      simpa using this
    by_cases hsok : st.storeOk = true
    · rw [if_pos hsok]
      refine ⟨rfl, ?_⟩
      show cccdOf a val = _
      unfold cccdOf
      rw [hg0, hg1, lor_shiftLeft_eight _ _ hb0]
    · rw [if_neg hsok]
      refine ⟨rfl, ?_⟩
      show cccdOf a val = _
      unfold cccdOf
      rw [hg0, hg1, lor_shiftLeft_eight _ _ hb0]

/-- C10 witness: an accepted 2-byte write `[0x34, 0x12]` to the CCCD
descriptor succeeds and sets `cccd` to `0x1234` (4660). -/
theorem C10_cccd_write_witness :
    (gatt_req_write HDLD_HIDS_REPORT_CLIENT_CHAR_CONFIG [52, 18] initialState).1 =
      GattStatus.success ∧
    (gatt_req_write HDLD_HIDS_REPORT_CLIENT_CHAR_CONFIG [52, 18] initialState).2.cccd =
      4660 := by
  have h := (C10_cccd_write initialState HDLD_HIDS_REPORT_CLIENT_CHAR_CONFIG [52, 18]).2.2.2
    hidsReportCccdAttr (by decide) rfl (by decide) (by decide) (by decide) (by decide)
  refine ⟨h.1, ?_⟩
  rw [h.2]
  decide

/-! ## Claim C2 -/

theorem callback_mac_oobRequested (mac : List Nat) (st : CoordState) :
    (callback_mac_address_changed mac st).2.oobRequested = st.oobRequested := rfl

theorem callback_mac_addressPushed (mac : List Nat) (st : CoordState) :
    (callback_mac_address_changed mac st).2.addressPushed = st.addressPushed := rfl

theorem callback_random_oobRequested (r : List Nat) (st : CoordState) :
    (callback_sc_random_value_changed r st).2.oobRequested = st.oobRequested := rfl

theorem callback_random_addressPushed (r : List Nat) (st : CoordState) :
    (callback_sc_random_value_changed r st).2.addressPushed = st.addressPushed := rfl

theorem callback_confirmation_oobRequested (c : List Nat) (st : CoordState) :
    (callback_sc_confirmation_value_changed c st).2.oobRequested = st.oobRequested := rfl

theorem callback_confirmation_addressPushed (c : List Nat) (st : CoordState) :
    (callback_sc_confirmation_value_changed c st).2.addressPushed = st.addressPushed := rfl

theorem loadBonding_oobRequested (st : CoordState) :
    (loadBonding st).oobRequested = st.oobRequested := by
  unfold loadBonding
  split
  · split
    · split <;> rfl
    · rfl
  · rfl

theorem loadBonding_addressPushed (st : CoordState) :
    (loadBonding st).addressPushed = st.addressPushed := by
  unfold loadBonding
  split
  · split
    · split <;> rfl
    · rfl
  · rfl

/-- Whether an event is the OOB-data notification. -/
def isOob : BtEvent → Bool
  | BtEvent.oobDataReady _ _ => true
  | _ => false

/-- Run a list of management events through `ble_callback`. -/
def runEvents (env : Env) (es : List BtEvent) (st : CoordState) : CoordState :=
  es.foldl (fun s e => (dispatch env e s).2) st

/-- Stack contract: an OOB-data notification is delivered only once OOB
generation has been requested via `wiced_bt_smp_create_local_sc_oob_data`
(the notification is the response to that request). -/
def validTrace (env : Env) : CoordState → List BtEvent → Bool
  | _, [] => true
  | st, e :: es =>
    (!isOob e || st.oobRequested) && validTrace env (dispatch env e st).2 es

/-- Invariant: OOB generation is requested only after the address push. -/
def oobInv (st : CoordState) : Bool := !st.oobRequested || st.addressPushed

theorem btm_enabled_oobInv (env : Env) (ok : Bool) (st : CoordState)
    (h : oobInv st = true) : oobInv (btm_enabled env ok st).2 = true := by
  simp only [btm_enabled]
  split_ifs <;>
    simp_all [oobInv, loadBonding_addressPushed, loadBonding_oobRequested,
      callback_mac_oobRequested, callback_mac_addressPushed]

theorem dispatch_oobInv (env : Env) (e : BtEvent) (st : CoordState)
    (h : oobInv st = true) : oobInv (dispatch env e st).2 = true := by
  cases e with
  | stackEnabled ok => exact btm_enabled_oobInv env ok st h
  | pairingIoCaps => exact h
  | pairingComplete =>
    simp only [dispatch, pairing_complete]
    split_ifs <;> simp_all [oobInv]
  | advertStateChanged m =>
    simp only [dispatch, advert_state_changed]
    split_ifs <;> simp_all [oobInv]
  | peerKeysUpdate k => simp_all [dispatch, oobInv]
  | peerKeysRequest =>
    simp only [dispatch]
    split_ifs <;> simp_all [oobInv]
  | identityKeysUpdate b =>
    simp only [dispatch, identity_keys_update]
    split_ifs <;> simp_all [oobInv]
  | identityKeysRequest =>
    simp only [dispatch, identity_keys_request]
    split <;> simp_all [oobInv]
  | encryptionStatus a =>
    simp only [dispatch, encryption_status]
    split_ifs <;> simp_all [oobInv]
  | oobDataReady p r =>
    simp only [dispatch, oob_data_notification]
    split_ifs <;>
      simp_all [oobInv, callback_random_oobRequested, callback_random_addressPushed,
        callback_confirmation_oobRequested, callback_confirmation_addressPushed]
  | securityRequest a => exact h
  | other => exact h

theorem runEvents_oobInv (env : Env) (es : List BtEvent) (st : CoordState)
    (h : oobInv st = true) : oobInv (runEvents env es st) = true := by
  induction es generalizing st with
  | nil => exact h
  | cons e es ih => exact ih _ (dispatch_oobInv env e st h)

theorem validTrace_append_cons (env : Env) (pre post : List BtEvent) (e : BtEvent)
    (st : CoordState) (h : validTrace env st (pre ++ e :: post) = true) :
    (!isOob e || (runEvents env pre st).oobRequested) = true := by
  induction pre generalizing st with
  | nil =>
    simp only [List.nil_append, validTrace, Bool.and_eq_true] at h
    exact h.1
  | cons e2 pre ih =>
    simp only [List.cons_append, validTrace, Bool.and_eq_true] at h
    exact ih _ h.2

/-- C2 counterexample: an OobDataReady event delivered in the initial
(pre-StackEnabled) state — the address has not been pushed — is not
rejected: `ble_callback` has no state guard, processes it fully, returns
`WICED_BT_SUCCESS`, and mutates the handover message. -/
theorem C2_counterexample :
    initialState.addressPushed = false ∧
    (dispatch envAllOk
      (BtEvent.oobDataReady (List.replicate 32 0x33) (List.replicate 16 0x44))
      initialState).1.result = WResult.success ∧
    (dispatch envAllOk
      (BtEvent.oobDataReady (List.replicate 32 0x33) (List.replicate 16 0x44))
      initialState).2.message ≠ initialState.message :=
  ⟨rfl, by decide, by decide⟩

/-- C2 (amended): in any run that starts in the initial state and
respects the stack contract (OOB notifications are delivered only after
the OOB-generation request, which `BTM_ENABLED_EVT` issues only after the
address push succeeds), every OobDataReady event is processed with the
address already pushed into the handover record.  There is, however, no
rejection path: a misordered OobDataReady is processed, not refused (see
the counterexample). -/
theorem C2_oob_after_address_push (env : Env) (pre post : List BtEvent)
    (pubx seed : List Nat)
    (hvalid : validTrace env initialState
      (pre ++ BtEvent.oobDataReady pubx seed :: post) = true) :
    (runEvents env pre initialState).oobRequested = true ∧
    (runEvents env pre initialState).addressPushed = true := by
  have h1 := validTrace_append_cons env pre post (BtEvent.oobDataReady pubx seed)
    initialState hvalid
  have h2 : (runEvents env pre initialState).oobRequested = true := by
    simpa [isOob] using h1
  have h3 := runEvents_oobInv env pre initialState (by rfl)
  unfold oobInv at h3
  rw [h2] at h3
  exact ⟨h2, by simpa using h3⟩

/-- C2 witness: for the concrete valid trace `[StackEnabled, OobDataReady]`
the address push has completed before the OOB event is processed. -/
theorem C2_oob_after_address_push_witness :
    (runEvents envAllOk [BtEvent.stackEnabled true] initialState).addressPushed = true :=
  (C2_oob_after_address_push envAllOk [BtEvent.stackEnabled true] []
    (List.replicate 32 0x11) (List.replicate 16 0x22) (by decide)).2
